import Mathlib

/-!
Verification development for the FlowShield voice-assistant client
(`src/app/(tabs)/index.tsx`).  The session/transcript controller is embedded
shallowly: the transcript log, the connection state of `HomeScreen`, the
room-scoped state of `RoomContent`, the data-channel decode pipeline
(`TextDecoder` with replacement followed by `JSON.parse`), and the event
handlers wired by the React effects.
-/

namespace FlowShield

/-- JSON values as produced by `JSON.parse`.  Numbers are kept as their raw
lexeme (no claim inspects numeric values).  Object fields keep source order;
duplicate keys are resolved by last-occurrence lookup, matching the JS object
built by `JSON.parse`. -/
inductive Json where
  | null
  | bool (b : Bool)
  | num (raw : String)
  | str (s : String)
  | arr (items : List Json)
  | obj (fields : List (String × Json))

mutual

/-- Decidable equality on `Json` (the derive handler does not support the
nested occurrence of `List`). -/
def Json.decEq : (a b : Json) → Decidable (a = b)
  | .null, .null => isTrue rfl
  | .bool a, .bool b => if h : a = b then isTrue (by rw [h]) else isFalse (by simp [h])
  | .num a, .num b => if h : a = b then isTrue (by rw [h]) else isFalse (by simp [h])
  | .str a, .str b => if h : a = b then isTrue (by rw [h]) else isFalse (by simp [h])
  | .arr xs, .arr ys =>
      match Json.decEqList xs ys with
      | isTrue h => isTrue (by rw [h])
      | isFalse h => isFalse (by simp [h])
  | .obj xs, .obj ys =>
      match Json.decEqFields xs ys with
      | isTrue h => isTrue (by rw [h])
      | isFalse h => isFalse (by simp [h])
  | .null, .bool _ => isFalse (by simp)
  | .null, .num _ => isFalse (by simp)
  | .null, .str _ => isFalse (by simp)
  | .null, .arr _ => isFalse (by simp)
  | .null, .obj _ => isFalse (by simp)
  | .bool _, .null => isFalse (by simp)
  | .bool _, .num _ => isFalse (by simp)
  | .bool _, .str _ => isFalse (by simp)
  | .bool _, .arr _ => isFalse (by simp)
  | .bool _, .obj _ => isFalse (by simp)
  | .num _, .null => isFalse (by simp)
  | .num _, .bool _ => isFalse (by simp)
  | .num _, .str _ => isFalse (by simp)
  | .num _, .arr _ => isFalse (by simp)
  | .num _, .obj _ => isFalse (by simp)
  | .str _, .null => isFalse (by simp)
  | .str _, .bool _ => isFalse (by simp)
  | .str _, .num _ => isFalse (by simp)
  | .str _, .arr _ => isFalse (by simp)
  | .str _, .obj _ => isFalse (by simp)
  | .arr _, .null => isFalse (by simp)
  | .arr _, .bool _ => isFalse (by simp)
  | .arr _, .num _ => isFalse (by simp)
  | .arr _, .str _ => isFalse (by simp)
  | .arr _, .obj _ => isFalse (by simp)
  | .obj _, .null => isFalse (by simp)
  | .obj _, .bool _ => isFalse (by simp)
  | .obj _, .num _ => isFalse (by simp)
  | .obj _, .str _ => isFalse (by simp)
  | .obj _, .arr _ => isFalse (by simp)

/-- Decidable equality on lists of `Json`. -/
def Json.decEqList : (xs ys : List Json) → Decidable (xs = ys)
  | [], [] => isTrue rfl
  | x :: xs, y :: ys =>
      match Json.decEq x y with
      | isFalse h => isFalse (by simp [h])
      | isTrue h1 =>
        match Json.decEqList xs ys with
        | isTrue h2 => isTrue (by rw [h1, h2])
        | isFalse h2 => isFalse (by simp [h2])
  | [], _ :: _ => isFalse (by simp)
  | _ :: _, [] => isFalse (by simp)

/-- Decidable equality on association lists of `Json`. -/
def Json.decEqFields : (xs ys : List (String × Json)) → Decidable (xs = ys)
  | [], [] => isTrue rfl
  | (k, v) :: xs, (l, w) :: ys =>
      match String.decEq k l with
      | isFalse h => isFalse (by simp [h])
      | isTrue h1 =>
        match Json.decEq v w with
        | isFalse h => isFalse (by simp [h])
        | isTrue h2 =>
          match Json.decEqFields xs ys with
          | isTrue h3 => isTrue (by rw [h1, h2, h3])
          | isFalse h3 => isFalse (by simp [h3])
  | [], _ :: _ => isFalse (by simp)
  | _ :: _, [] => isFalse (by simp)

end

instance : DecidableEq Json := Json.decEq

/-- A transcript entry (source interface `TranscriptMessage`).  `text` is an
`Option Json`: `data.text` is read off the decoded JSON without validation, so
it may be absent (`undefined`) or any JSON value; controller-generated notices
pass a plain string. -/
structure TranscriptMessage where
  id : String
  text : Option Json
  participant : String
  timestamp : Nat
  isUser : Bool
deriving DecidableEq

/-- Ambient values read by one call to `addTranscriptMessage`: `now` models
`Date.now()` / `new Date()` (milliseconds) at the call instant, `rand` the
stringification of `Math.random()` appended to the id. -/
structure Env where
  now : Nat
  rand : String
deriving DecidableEq

/-- The entry constructed by `addTranscriptMessage`:
`id = Date.now().toString() + Math.random()`, `timestamp = new Date()`. -/
def mkTranscriptMessage (env : Env) (text : Option Json) (participant : String)
    (isUser : Bool) : TranscriptMessage :=
  { id := toString env.now ++ env.rand
    text := text
    participant := participant
    timestamp := env.now
    isUser := isUser }

/-- `addTranscriptMessage`: `setTranscripts(prev => [...prev, newMessage])`. -/
def addTranscriptMessage (env : Env) (text : Option Json) (participant : String)
    (isUser : Bool) (prev : List TranscriptMessage) : List TranscriptMessage :=
  prev ++ [mkTranscriptMessage env text participant isUser]

/-- `clearTranscripts`: `setTranscripts([])`. -/
def clearTranscripts (_ts : List TranscriptMessage) : List TranscriptMessage := []

/-- One call to `addTranscriptMessage` with its ambient environment. -/
structure AppendCall where
  env : Env
  text : Option Json
  participant : String
  isUser : Bool
deriving DecidableEq

/-- A sequence of `addTranscriptMessage` calls applied in order. -/
def appendSeq (calls : List AppendCall) (init : List TranscriptMessage) :
    List TranscriptMessage :=
  calls.foldl (fun acc c => addTranscriptMessage c.env c.text c.participant c.isUser acc) init

/-- A room participant as observed through `useParticipants()`. -/
structure Participant where
  identity : String
deriving DecidableEq

/-- Text of the welcome notice appended on first render of `RoomContent`. -/
def welcomeText : String := "Connected to FlowShield Assistant! Start speaking..."

/-- Component-local state of `RoomContent` (the `useState` hooks).  The source
flag is named `isInitialized`. -/
structure RoomState where
  transcripts : List TranscriptMessage
  isInitDone : Bool
deriving DecidableEq

/-- Fresh `RoomContent` state on mount: `useState([])`, `useState(false)`. -/
def roomInit : RoomState := { transcripts := [], isInitDone := false }

/-- The `useEffect` guarded by the `isInitialized` flag: on first run it
appends the welcome notice and sets the flag; later runs do nothing. -/
def initEffect (env : Env) (r : RoomState) : RoomState :=
  if r.isInitDone then r
  else
    { transcripts := addTranscriptMessage env (some (Json.str welcomeText)) "System" false r.transcripts
      isInitDone := true }

/-- Text of the per-participant announcement appended on a roster change. -/
def rosterMessageText (p : Participant) : String :=
  "Assistant " ++ p.identity ++ " is in the room"

/-- The `useEffect` keyed on `participants`: when the roster is non-empty it
calls `addTranscriptMessage` once per participant, in roster order.  Each call
reads its own ambient environment, supplied positionally by `envs`. -/
def rosterEffect (envs : List Env) (roster : List Participant) (r : RoomState) : RoomState :=
  if 0 < roster.length then
    { r with
      transcripts :=
        (roster.zip envs).foldl
          (fun acc pe =>
            addTranscriptMessage pe.2 (some (Json.str (rosterMessageText pe.1))) "System" false acc)
          r.transcripts }
  else r

/-- The U+FFFD replacement character emitted by `TextDecoder` on invalid
UTF-8 input (the decoder is constructed without `fatal: true`, so it never
throws). -/
def replChar : Char := Char.ofNat 0xFFFD

/-- Is `b` a UTF-8 continuation byte (`0x80..0xBF`)? -/
def isCont (b : Nat) : Bool := decide (0x80 ≤ b ∧ b ≤ 0xBF)

/-- WHATWG UTF-8 decoding with replacement, as performed by
`new TextDecoder().decode`: maximal-subpart errors emit one U+FFFD and resume
at the offending byte. -/
def utf8Aux : List Nat → List Char
  | [] => []
  | b :: rest =>
    if b ≤ 0x7F then Char.ofNat b :: utf8Aux rest
    else if b ≤ 0xC1 then replChar :: utf8Aux rest
    else if b ≤ 0xDF then
      match rest with
      | [] => [replChar]
      | c1 :: rest1 =>
        if isCont c1 then Char.ofNat ((b - 0xC0) * 0x40 + (c1 - 0x80)) :: utf8Aux rest1
        else replChar :: utf8Aux (c1 :: rest1)
    else if b ≤ 0xEF then
      match rest with
      | [] => [replChar]
      | c1 :: rest1 =>
        if (if b = 0xE0 then decide (0xA0 ≤ c1 ∧ c1 ≤ 0xBF)
            else if b = 0xED then decide (0x80 ≤ c1 ∧ c1 ≤ 0x9F)
            else isCont c1) then
          match rest1 with
          | [] => [replChar]
          | c2 :: rest2 =>
            if isCont c2 then
              Char.ofNat ((b - 0xE0) * 0x1000 + (c1 - 0x80) * 0x40 + (c2 - 0x80)) :: utf8Aux rest2
            else replChar :: utf8Aux (c2 :: rest2)
        else replChar :: utf8Aux (c1 :: rest1)
    else if b ≤ 0xF4 then
      match rest with
      | [] => [replChar]
      | c1 :: rest1 =>
        if (if b = 0xF0 then decide (0x90 ≤ c1 ∧ c1 ≤ 0xBF)
            else if b = 0xF4 then decide (0x80 ≤ c1 ∧ c1 ≤ 0x8F)
            else isCont c1) then
          match rest1 with
          | [] => [replChar]
          | c2 :: rest2 =>
            if isCont c2 then
              match rest2 with
              | [] => [replChar]
              | c3 :: rest3 =>
                if isCont c3 then
                  Char.ofNat
                      ((b - 0xF0) * 0x40000 + (c1 - 0x80) * 0x1000 + (c2 - 0x80) * 0x40 + (c3 - 0x80))
                    :: utf8Aux rest3
                else replChar :: utf8Aux (c3 :: rest3)
            else replChar :: utf8Aux (c2 :: rest2)
        else replChar :: utf8Aux (c1 :: rest1)
    else replChar :: utf8Aux rest

/-- `new TextDecoder().decode(payload)` as a character sequence. -/
def utf8DecodeReplace (bytes : List Nat) : List Char := utf8Aux bytes

/-- The `0x7B` character, written out to keep string literals brace-free. -/
def lbrace : Char := Char.ofNat 0x7B

/-- The `0x7D` character. -/
def rbrace : Char := Char.ofNat 0x7D

/-- JSON insignificant whitespace. -/
def isJsonWs (c : Char) : Bool := c = ' ' || c = '\t' || c = '\n' || c = '\r'

/-- Drop leading JSON whitespace. -/
def skipWs : List Char → List Char
  | [] => []
  | c :: cs => if isJsonWs c then skipWs cs else c :: cs

/-- ASCII decimal digit. -/
def isDigitCh (c : Char) : Bool := decide ('0' ≤ c ∧ c ≤ '9')

/-- Value of a hexadecimal digit. -/
def hexVal (c : Char) : Option Nat :=
  if decide ('0' ≤ c ∧ c ≤ '9') then some (c.toNat - '0'.toNat)
  else if decide ('a' ≤ c ∧ c ≤ 'f') then some (c.toNat - 'a'.toNat + 10)
  else if decide ('A' ≤ c ∧ c ≤ 'F') then some (c.toNat - 'A'.toNat + 10)
  else none

/-- Four hex digits of a `\uXXXX` escape. -/
def parseHex4 : List Char → Option (Nat × List Char)
  | a :: b :: c :: d :: rest => do
      let x ← hexVal a
      let y ← hexVal b
      let z ← hexVal c
      let w ← hexVal d
      pure (x * 0x1000 + y * 0x100 + z * 0x10 + w, rest)
  | _ => none

/-- Single-character escapes accepted by JSON strings. -/
def escChar (c : Char) : Option Char :=
  if c = '"' then some '"'
  else if c = '\\' then some '\\'
  else if c = '/' then some '/'
  else if c = 'b' then some (Char.ofNat 8)
  else if c = 'f' then some (Char.ofNat 12)
  else if c = 'n' then some '\n'
  else if c = 'r' then some '\r'
  else if c = 't' then some '\t'
  else none

/-- Body of a JSON string after the opening quote.  Surrogate pairs written
with `\uXXXX` escapes are combined; a lone surrogate is rendered as U+FFFD at
this representation boundary (JS strings are UTF-16 and may hold one; no other
behaviour depends on it).  Returns the characters and the input after the
closing quote. -/
def parseStringBody : Nat → List Char → Option (List Char × List Char)
  | 0, _ => none
  | _, [] => none
  | fuel + 1, c :: cs =>
    if c = '"' then some ([], cs)
    else if c = '\\' then
      match cs with
      | [] => none
      | e :: cs1 =>
        if e = 'u' then
          match parseHex4 cs1 with
          | none => none
          | some (n, cs2) =>
            if decide (0xD800 ≤ n ∧ n ≤ 0xDBFF) then
              match cs2 with
              | '\\' :: 'u' :: cs3 =>
                match parseHex4 cs3 with
                | some (m, cs4) =>
                  if decide (0xDC00 ≤ m ∧ m ≤ 0xDFFF) then do
                    let (tl, rest) ← parseStringBody fuel cs4
                    pure (Char.ofNat (0x10000 + (n - 0xD800) * 0x400 + (m - 0xDC00)) :: tl, rest)
                  else do
                    let (tl, rest) ← parseStringBody fuel cs2
                    pure (replChar :: tl, rest)
                | none => do
                    let (tl, rest) ← parseStringBody fuel cs2
                    pure (replChar :: tl, rest)
              | _ => do
                  let (tl, rest) ← parseStringBody fuel cs2
                  pure (replChar :: tl, rest)
            else if decide (0xDC00 ≤ n ∧ n ≤ 0xDFFF) then do
              let (tl, rest) ← parseStringBody fuel cs2
              pure (replChar :: tl, rest)
            else do
              let (tl, rest) ← parseStringBody fuel cs2
              pure (Char.ofNat n :: tl, rest)
        else
          match escChar e with
          | some d => do
              let (tl, rest) ← parseStringBody fuel cs1
              pure (d :: tl, rest)
          | none => none
    else if c.toNat < 0x20 then none
    else do
      let (tl, rest) ← parseStringBody fuel cs
      pure (c :: tl, rest)

/-- Longest run of leading decimal digits. -/
def takeDigits : List Char → List Char × List Char
  | [] => ([], [])
  | c :: cs =>
    if isDigitCh c then
      let (ds, rest) := takeDigits cs
      (c :: ds, rest)
    else ([], c :: cs)

/-- Integer part of a JSON number: `0` or a nonzero digit followed by digits
(leading zeros are rejected, as by `JSON.parse`). -/
def parseIntPart : List Char → Option (List Char × List Char)
  | [] => none
  | c :: cs =>
    if c = '0' then some ([c], cs)
    else if isDigitCh c then
      let (ds, rest) := takeDigits cs
      some (c :: ds, rest)
    else none

/-- Optional fraction part `.digits`. -/
def parseFracPart : List Char → Option (List Char × List Char)
  | '.' :: cs =>
    (match takeDigits cs with
     | ([], _) => none
     | (ds, rest) => some ('.' :: ds, rest))
  | cs => some ([], cs)

/-- Optional exponent part `e[+-]?digits`. -/
def parseExpPart : List Char → Option (List Char × List Char)
  | [] => some ([], [])
  | c :: cs =>
    if c = 'e' || c = 'E' then
      match cs with
      | [] => none
      | s :: cs2 =>
        if s = '+' || s = '-' then
          match takeDigits cs2 with
          | ([], _) => none
          | (ds, rest) => some (c :: s :: ds, rest)
        else
          match takeDigits cs with
          | ([], _) => none
          | (ds, rest) => some (c :: ds, rest)
    else some ([], c :: cs)

/-- A JSON number lexeme, kept raw. -/
def parseNumberRaw (cs : List Char) : Option (String × List Char) :=
  match cs with
  | '-' :: cs1 => do
      let (i, r1) ← parseIntPart cs1
      let (f, r2) ← parseFracPart r1
      let (e, r3) ← parseExpPart r2
      pure (String.mk ('-' :: (i ++ f ++ e)), r3)
  | _ => do
      let (i, r1) ← parseIntPart cs
      let (f, r2) ← parseFracPart r1
      let (e, r3) ← parseExpPart r2
      pure (String.mk (i ++ f ++ e), r3)

mutual

/-- One JSON value, leading whitespace allowed.  `fuel` bounds the recursion
depth; `jsonParse` supplies enough for any input of its length. -/
def parseValue : Nat → List Char → Option (Json × List Char)
  | 0, _ => none
  | fuel + 1, cs =>
    match skipWs cs with
    | [] => none
    | c :: cs1 =>
      if c = '"' then
        (parseStringBody fuel cs1).map (fun p => (Json.str (String.mk p.1), p.2))
      else if c = lbrace then parseObjFields fuel cs1
      else if c = '[' then parseArrItems fuel cs1
      else if c = 't' then
        match cs1 with
        | 'r' :: 'u' :: 'e' :: rest => some (Json.bool true, rest)
        | _ => none
      else if c = 'f' then
        match cs1 with
        | 'a' :: 'l' :: 's' :: 'e' :: rest => some (Json.bool false, rest)
        | _ => none
      else if c = 'n' then
        match cs1 with
        | 'u' :: 'l' :: 'l' :: rest => some (Json.null, rest)
        | _ => none
      else if c = '-' || isDigitCh c then
        (parseNumberRaw (c :: cs1)).map (fun p => (Json.num p.1, p.2))
      else none

/-- Array items after the opening bracket. -/
def parseArrItems : Nat → List Char → Option (Json × List Char)
  | 0, _ => none
  | fuel + 1, cs =>
    match skipWs cs with
    | ']' :: rest => some (Json.arr [], rest)
    | cs1 =>
      match parseValue fuel cs1 with
      | none => none
      | some (v, rest) =>
        match parseArrRest fuel rest with
        | none => none
        | some (vs, rest2) => some (Json.arr (v :: vs), rest2)

/-- Remaining `, value` items of an array, up to the closing bracket. -/
def parseArrRest : Nat → List Char → Option (List Json × List Char)
  | 0, _ => none
  | fuel + 1, cs =>
    match skipWs cs with
    | ']' :: rest => some ([], rest)
    | ',' :: cs1 =>
      (match parseValue fuel cs1 with
       | none => none
       | some (v, rest) =>
         match parseArrRest fuel rest with
         | none => none
         | some (vs, rest2) => some (v :: vs, rest2))
    | _ => none

/-- Object fields after the opening brace. -/
def parseObjFields : Nat → List Char → Option (Json × List Char)
  | 0, _ => none
  | fuel + 1, cs =>
    match skipWs cs with
    | [] => none
    | c :: cs1 =>
      if c = rbrace then some (Json.obj [], cs1)
      else if c = '"' then
        match parseStringBody fuel cs1 with
        | none => none
        | some (k, rest) =>
          match skipWs rest with
          | ':' :: rest1 =>
            (match parseValue fuel rest1 with
             | none => none
             | some (v, rest2) =>
               match parseObjRest fuel rest2 with
               | none => none
               | some (kvs, rest3) => some (Json.obj ((String.mk k, v) :: kvs), rest3))
          | _ => none
      else none

/-- Remaining `, "key": value` fields of an object, up to the closing brace. -/
def parseObjRest : Nat → List Char → Option (List (String × Json) × List Char)
  | 0, _ => none
  | fuel + 1, cs =>
    match skipWs cs with
    | [] => none
    | c :: cs1 =>
      if c = rbrace then some ([], cs1)
      else if c = ',' then
        match skipWs cs1 with
        | '"' :: cs2 =>
          (match parseStringBody fuel cs2 with
           | none => none
           | some (k, rest) =>
             match skipWs rest with
             | ':' :: rest1 =>
               (match parseValue fuel rest1 with
                | none => none
                | some (v, rest2) =>
                  match parseObjRest fuel rest2 with
                  | none => none
                  | some (kvs, rest3) => some ((String.mk k, v) :: kvs, rest3))
             | _ => none)
        | _ => none
      else none

end

/-- `JSON.parse` on a character sequence: one value, then only trailing
whitespace; `none` models the thrown `SyntaxError` (caught by the caller).
The fuel `4 * (length + 1)` dominates the recursion depth of any parse, since
every two nested calls consume at least one character. -/
def jsonParse (cs : List Char) : Option Json :=
  match parseValue (4 * (cs.length + 1)) cs with
  | none => none
  | some (j, rest) => if skipWs rest = [] then some j else none

/-- Last-occurrence lookup in an object's field list: `JSON.parse` builds the
JS object by assigning fields in order, so a duplicate key keeps its last
value. -/
def lookupLast (fields : List (String × Json)) (key : String) : Option Json :=
  fields.foldl (fun acc kv => if kv.1 = key then some kv.2 else acc) none

/-- JS property access `data.key`: a field of an object, `undefined` (`none`)
for a missing field and for every non-object, non-null value.  Callers treat
`null` separately, where the access throws. -/
def getField : Json → String → Option Json
  | Json.obj fields, key => lookupLast fields key
  | _, _ => none

/-- Observable outcome of one `handleDataReceived` invocation. -/
inductive DataOutcome where
  | errorLogged
  | ignored
  | appended (text : Option Json) (speaker : String) (isUser : Bool)
deriving DecidableEq

/-- Did the handler append a transcript entry? -/
def DataOutcome.isAppend : DataOutcome → Bool
  | appended _ _ _ => true
  | _ => false

/-- `participant?.identity || 'User'`: the `||` coalesces every falsy value,
so an empty identity also yields `"User"`. -/
def speakerFor : Option Participant → String
  | some p => if p.identity = "" then "User" else p.identity
  | none => "User"

/-- `participant?.identity === 'user' || !participant`. -/
def isUserFor : Option Participant → Bool
  | some p => p.identity = "user"
  | none => true

/-- The `dataReceived` handler: decode the payload with `TextDecoder` (never
throws) and `JSON.parse` (throws on invalid JSON, caught and logged); a parsed
`null` also reaches the catch because `data.type` throws a `TypeError` on it.
Any other parsed value is inspected: only an object whose `type` field is the
string `"transcription"` causes an append; everything else is silently
ignored. -/
def handleDataReceived (payload : List Nat) (participant : Option Participant) : DataOutcome :=
  match jsonParse (utf8DecodeReplace payload) with
  | none => DataOutcome.errorLogged
  | some Json.null => DataOutcome.errorLogged
  | some j =>
    match getField j "type" with
    | some (Json.str t) =>
      if t = "transcription" then
        DataOutcome.appended (getField j "text") (speakerFor participant) (isUserFor participant)
      else DataOutcome.ignored
    | _ => DataOutcome.ignored

/-- Effect of one inbound data message on the `RoomContent` state. -/
def dataEffect (env : Env) (payload : List Nat) (participant : Option Participant)
    (r : RoomState) : RoomState :=
  match handleDataReceived payload participant with
  | DataOutcome.appended text speaker isUser =>
      { r with transcripts := addTranscriptMessage env text speaker isUser r.transcripts }
  | _ => r

/-- The speaker label rendered for an entry:
`message.isUser ? 'You' : message.participant`. -/
def displayName (m : TranscriptMessage) : String :=
  if m.isUser then "You" else m.participant

/-- `HomeScreen` error message for a missing server URL. -/
def urlMissingMsg : String := "LIVEKIT_URL is not configured"

/-- `HomeScreen` error message for a missing token. -/
def jwtMissingMsg : String :=
  "LIVEKIT_JWT is not configured. Please add your JWT token to the .env file or app.json extra config."

/-- Observable state of the app: the `HomeScreen` hooks plus the mounted
`RoomContent` state when the connected branch is rendered.  `room = none`
models the disconnected screen; React discards the component-local hooks on
unmount. -/
structure AppState where
  shouldConnect : Bool
  error : Option String
  room : Option RoomState
deriving DecidableEq

/-- Initial app state: `useState(false)`, `useState(null)`, nothing mounted. -/
def appInit : AppState := { shouldConnect := false, error := none, room := none }

/-- `connectToRoom`: validate the configured credentials, set the
corresponding error and return early, or clear the error and request the
connection.  Touches nothing else. -/
def connectToRoom (url token : String) (s : AppState) : AppState :=
  if url = "" then { s with error := some urlMissingMsg }
  else if token = "" then { s with error := some jwtMissingMsg }
  else { s with error := none, shouldConnect := true }

/-- Render synchronisation: `HomeScreen` renders `VoiceAssistant` (and with it
`RoomContent`) exactly when `shouldConnect && !error`; mounting creates fresh
hook state, unmounting discards it. -/
def renderSync (s : AppState) : AppState :=
  if s.shouldConnect && s.error.isNone then
    match s.room with
    | some _ => s
    | none => { s with room := some roomInit }
  else { s with room := none }

/-- External stimuli handled (or not handled) by the app. -/
inductive Event where
  | connectClick (url token : String)
  | welcomeEffect (env : Env)
  | rosterChanged (envs : List Env) (roster : List Participant)
  | dataReceived (env : Env) (payload : List Nat) (participant : Option Participant)
  | sessionFailed (reason : String)
  | disconnectClick
  | clearClick

/-- Apply a function to the mounted room state, if any. -/
def onRoom (f : RoomState → RoomState) (s : AppState) : AppState :=
  match s.room with
  | some r => { s with room := some (f r) }
  | none => s

/-- One event step.  The connect button exists only on the disconnected
screen; `sessionFailed` has no registered handler anywhere in the component,
so it changes nothing. -/
def step (s : AppState) : Event → AppState
  | Event.connectClick url token =>
      match s.room with
      | none => renderSync (connectToRoom url token s)
      | some _ => s
  | Event.welcomeEffect env => onRoom (initEffect env) s
  | Event.rosterChanged envs roster => onRoom (rosterEffect envs roster) s
  | Event.dataReceived env payload participant => onRoom (dataEffect env payload participant) s
  | Event.sessionFailed _ => s
  | Event.disconnectClick => renderSync { s with shouldConnect := false }
  | Event.clearClick => onRoom (fun r => { r with transcripts := clearTranscripts r.transcripts }) s

/-- The transcript visible to the presentation layer. -/
def transcriptSnapshot (s : AppState) : List TranscriptMessage :=
  match s.room with
  | some r => r.transcripts
  | none => []

/-- Byte sequence of an ASCII string, for concrete wire payloads. -/
def strBytes (s : String) : List Nat := s.data.map Char.toNat

/-- A fixed ambient environment for concrete runs. -/
def env0 : Env := { now := 0, rand := "0" }

/-- Two appends observed while the wall clock is adjusted backward:
`Date.now()` reads 5 ms, then 3 ms. -/
def backwardCalls : List AppendCall :=
  [ { env := { now := 5, rand := "a" }, text := some (Json.str "x"), participant := "User", isUser := true },
    { env := { now := 3, rand := "b" }, text := some (Json.str "y"), participant := "User", isUser := true } ]

/-- Three appends under a non-decreasing clock (1 ms, 2 ms, 2 ms). -/
def forwardCalls : List AppendCall :=
  [ { env := { now := 1, rand := "a" }, text := some (Json.str "x"), participant := "User", isUser := true },
    { env := { now := 2, rand := "b" }, text := some (Json.str "y"), participant := "System", isUser := false },
    { env := { now := 2, rand := "c" }, text := some (Json.str "z"), participant := "User", isUser := true } ]

/-- Wire payload `{"type":"transcription","text":"hi"}`. -/
def transcriptionHiPayload : List Nat :=
  strBytes "\x7b\"type\":\"transcription\",\"text\":\"hi\"\x7d"

/-- Wire payload `{"type":"transcription","text":"hello"}`. -/
def transcriptionHelloPayload : List Nat :=
  strBytes "\x7b\"type\":\"transcription\",\"text\":\"hello\"\x7d"

/-- Wire payload `{"type":"transcription"}` (no `text` field). -/
def transcriptionNoTextPayload : List Nat :=
  strBytes "\x7b\"type\":\"transcription\"\x7d"

/-- Concrete run: connect with valid credentials, then the welcome effect. -/
def connectedAfterWelcome : AppState :=
  step (step appInit (Event.connectClick "wss://x" "abc")) (Event.welcomeEffect env0)

/-- A connected state with an established session and empty transcript. -/
def connectedQuiet : AppState :=
  { shouldConnect := true, error := none
    room := some { transcripts := [], isInitDone := true } }

/-- A connected state whose transcript holds one entry. -/
def connectedWithEntry : AppState :=
  { shouldConnect := true, error := none
    room := some
      { transcripts := [mkTranscriptMessage env0 (some (Json.str "hi")) "User" true]
        isInitDone := true } }

/-- The JSON object decoded from `transcriptionHelloPayload`. -/
def helloJson : Json :=
  Json.obj [("type", Json.str "transcription"), ("text", Json.str "hello")]

/-- A one-participant roster. -/
def agentRoster : List Participant := [{ identity := "agent" }]

end FlowShield

namespace FlowShield

/-- Unfolding of a sequence of appends: the prior entries are preserved and
the new entries follow in call order. -/
theorem appendSeq_eq (calls : List AppendCall) (init : List TranscriptMessage) :
    appendSeq calls init =
      init ++ calls.map (fun c => mkTranscriptMessage c.env c.text c.participant c.isUser) := by
  induction calls generalizing init with
  | nil => simp [appendSeq]
  | cons c cs ih =>
      show appendSeq cs (addTranscriptMessage c.env c.text c.participant c.isUser init) = _
      rw [ih]
      simp [addTranscriptMessage]

/-- C1: `connectToRoom` with an empty server URL sets the missing-URL error
and changes nothing else (the state stays on the disconnected screen); with a
URL but an empty token it sets the missing-token error and changes nothing
else; with both non-empty it clears any prior error and requests the
connection. -/
theorem C1_requestConnect_validation (url token : String) (s : AppState) :
    (url = "" → connectToRoom url token s = { s with error := some urlMissingMsg }) ∧
    (url ≠ "" → token = "" → connectToRoom url token s = { s with error := some jwtMissingMsg }) ∧
    (url ≠ "" → token ≠ "" →
        connectToRoom url token s = { s with error := none, shouldConnect := true }) := by
  refine ⟨fun h => ?_, fun h1 h2 => ?_, fun h1 h2 => ?_⟩ <;> simp [connectToRoom, *]

/-- Witness for C1 at concrete credentials. -/
theorem C1_requestConnect_validation_witness :
    connectToRoom "" "tok" appInit = { appInit with error := some urlMissingMsg } ∧
    connectToRoom "wss://x" "" appInit = { appInit with error := some jwtMissingMsg } ∧
    connectToRoom "wss://x" "abc" appInit = { appInit with error := none, shouldConnect := true } :=
  ⟨(C1_requestConnect_validation "" "tok" appInit).1 rfl,
   (C1_requestConnect_validation "wss://x" "" appInit).2.1 (by decide) rfl,
   (C1_requestConnect_validation "wss://x" "abc" appInit).2.2 (by decide) (by decide)⟩

/-- C2 counterexample: `addTranscriptMessage` stamps each entry with the raw
wall-clock reading, with no clamping, so when the clock is adjusted backward
between two appends the timestamps decrease. -/
theorem C2_counterexample :
    ((appendSeq backwardCalls []).map (fun m => m.timestamp) = [5, 3]) ∧
    ¬ List.Chain' (fun a b => a.timestamp ≤ b.timestamp) (appendSeq backwardCalls []) := by
  constructor
  · rfl
  · simp [appendSeq, backwardCalls, addTranscriptMessage, mkTranscriptMessage, List.chain'_cons]

/-- C2 (amended): the timestamps of appended entries equal the wall-clock
readings of the calls, so for any sequence of appends whose clock readings are
non-decreasing the entry timestamps are non-decreasing; the implementation
does not clamp against backward clock adjustment. -/
theorem C2_timestamps_follow_clock (calls : List AppendCall)
    (h : List.Chain' (fun a b => a ≤ b) (calls.map (fun c => c.env.now))) :
    List.Chain' (fun a b => a.timestamp ≤ b.timestamp) (appendSeq calls []) := by
  rw [appendSeq_eq, List.nil_append, List.chain'_map]
  rw [List.chain'_map] at h
  exact h

/-- Witness for C2 (amended) at a concrete non-decreasing clock. -/
theorem C2_timestamps_follow_clock_witness :
    List.Chain' (fun a b => a.timestamp ≤ b.timestamp) (appendSeq forwardCalls []) :=
  C2_timestamps_follow_clock forwardCalls (by simp [forwardCalls, List.chain'_cons])

/-- C3 counterexample: the welcome notice appended on first render reads
"Connected to FlowShield Assistant! Start speaking...", not the claimed
"Connected to Assistant! Start speaking...". -/
theorem C3_counterexample :
    ((initEffect env0 roomInit).transcripts.map (fun m => m.text) =
        [some (Json.str "Connected to FlowShield Assistant! Start speaking...")]) ∧
    ((initEffect env0 roomInit).transcripts.map (fun m => m.text) ≠
        [some (Json.str "Connected to Assistant! Start speaking...")]) := by
  constructor
  · rfl
  · decide

/-- C3 (amended): on the first run of the initialisation effect — and only
then — exactly one entry is appended, with text
"Connected to FlowShield Assistant! Start speaking...", speaker "System" and
`isUser = false`; every later run of the effect leaves the state unchanged. -/
theorem C3_welcome_once (env : Env) (r : RoomState) (h : r.isInitDone = false) :
    initEffect env r =
      { transcripts := r.transcripts ++
          [mkTranscriptMessage env (some (Json.str welcomeText)) "System" false]
        isInitDone := true } ∧
    ∀ env2, initEffect env2 (initEffect env r) = initEffect env r := by
  constructor
  · simp [initEffect, h, addTranscriptMessage]
  · intro env2
    simp [initEffect, h]

/-- Witness for C3 (amended) on a fresh room state. -/
theorem C3_welcome_once_witness :
    initEffect env0 roomInit =
      { transcripts := [mkTranscriptMessage env0 (some (Json.str welcomeText)) "System" false]
        isInitDone := true } ∧
    initEffect env0 (initEffect env0 roomInit) = initEffect env0 roomInit := by
  have h := C3_welcome_once env0 roomInit rfl
  exact ⟨by simpa using h.1, h.2 env0⟩

/-- C8: the transcript is append-only except for clear — N appends starting
from any prior contents yield exactly the prior contents followed by the N new
entries in call order, N appends from empty yield exactly N entries, and
`clearTranscripts` empties the sequence. -/
theorem C8_append_only_and_clear (calls : List AppendCall) (init : List TranscriptMessage) :
    appendSeq calls init =
        init ++ calls.map (fun c => mkTranscriptMessage c.env c.text c.participant c.isUser) ∧
    (appendSeq calls []).length = calls.length ∧
    clearTranscripts (appendSeq calls init) = [] := by
  refine ⟨appendSeq_eq calls init, ?_, rfl⟩
  rw [appendSeq_eq]
  simp

/-- A successful field access only happens on an object. -/
theorem getField_is_obj {j : Json} {k : String} {v : Json} (h : getField j k = some v) :
    ∃ fields, j = Json.obj fields := by
  cases j with
  | obj fields => exact ⟨fields, rfl⟩
  | null => simp [getField] at h
  | bool b => simp [getField] at h
  | num raw => simp [getField] at h
  | str s => simp [getField] at h
  | arr items => simp [getField] at h

/-- When the payload decodes to a value whose `type` field is the string
`"transcription"`, the handler appends with the (unvalidated) `text` field,
the `||`-coalesced speaker, and the locality flag. -/
theorem handleDataReceived_transcription (payload : List Nat) (p : Option Participant)
    (j : Json) (hp : jsonParse (utf8DecodeReplace payload) = some j)
    (ht : getField j "type" = some (Json.str "transcription")) :
    handleDataReceived payload p =
      DataOutcome.appended (getField j "text") (speakerFor p) (isUserFor p) := by
  obtain ⟨fields, rfl⟩ := getField_is_obj ht
  simp [handleDataReceived, hp, ht]

/-- C4 counterexample: a JSON array payload (`[]`), an object without a
`type` field, and a non-UTF-8 payload whose replacement-decoded text happens
to be valid JSON are all processed without any error being raised — the
handler silently ignores them, so none of them yields a `MalformedPayload` or
`MissingType` error as claimed. -/
theorem C4_counterexample :
    handleDataReceived (strBytes "[]") none = DataOutcome.ignored ∧
    handleDataReceived (strBytes "\x7b\x7d") none = DataOutcome.ignored ∧
    handleDataReceived [0x22, 0xFF, 0x22] none = DataOutcome.ignored ∧
    DataOutcome.ignored ≠ DataOutcome.errorLogged := by
  exact ⟨rfl, rfl, rfl, by decide⟩

/-- C4 (amended): the only decode error is a `JSON.parse` failure (or the
`TypeError` on a parsed `null`), which is caught and logged; arrays and
objects without a `type` field parse successfully and are silently ignored
without error; in every non-append case the transcript is not mutated and the
session is not disrupted. -/
theorem C4_malformed_nonfatal (payload : List Nat) (p : Option Participant) :
    (jsonParse (utf8DecodeReplace payload) = none →
        handleDataReceived payload p = DataOutcome.errorLogged) ∧
    ((handleDataReceived payload p).isAppend = false →
        ∀ env r, dataEffect env payload p r = r) := by
  constructor
  · intro h
    simp [handleDataReceived, h]
  · intro h env r
    cases hout : handleDataReceived payload p with
    | appended t s u => simp [hout, DataOutcome.isAppend] at h
    | errorLogged => simp [dataEffect, hout]
    | ignored => simp [dataEffect, hout]

/-- Witness for C4 (amended): a lone invalid byte decodes to U+FFFD, fails
`JSON.parse`, is logged, and leaves the room state unchanged. -/
theorem C4_malformed_nonfatal_witness :
    handleDataReceived [0xFF] none = DataOutcome.errorLogged ∧
    dataEffect env0 [0xFF] none roomInit = roomInit :=
  ⟨(C4_malformed_nonfatal [0xFF] none).1 rfl,
   (C4_malformed_nonfatal [0xFF] none).2 rfl env0 roomInit⟩

/-- C5 counterexample: a transcription from a participant whose identity is
the empty string (present, but falsy) is appended with speaker `"User"`, not
with the sender identity, because the source uses falsy `||` rather than
nullish `??` coalescing. -/
theorem C5_counterexample :
    handleDataReceived transcriptionHiPayload (some { identity := "" }) =
        DataOutcome.appended (some (Json.str "hi")) "User" false ∧
    ("User" : String) ≠ "" := by
  exact ⟨rfl, by decide⟩

/-- C5 (amended): for every payload decoding to a `"transcription"` object,
the handler appends the `text` field with `isLocalUser` true exactly when the
participant is absent or its identity is `"user"`, and with speaker equal to
the sender identity when it is present and non-empty and `"User"` otherwise
(falsy coalescing); entries with `isUser` set are displayed as `"You"`. -/
theorem C5_transcription_append (payload : List Nat) (p : Option Participant) (j : Json)
    (hp : jsonParse (utf8DecodeReplace payload) = some j)
    (ht : getField j "type" = some (Json.str "transcription")) :
    handleDataReceived payload p =
        DataOutcome.appended (getField j "text") (speakerFor p) (isUserFor p) ∧
    (isUserFor p = true ↔ p = none ∨ ∃ q, p = some q ∧ q.identity = "user") ∧
    (∀ m : TranscriptMessage, m.isUser = true → displayName m = "You") := by
  refine ⟨handleDataReceived_transcription payload p j hp ht, ?_, ?_⟩
  · cases p with
    | none => simp [isUserFor]
    | some q => simp [isUserFor]
  · intro m hm
    simp [displayName, hm]

/-- Witness for C5 (amended) on a concrete assistant transcription. -/
theorem C5_transcription_append_witness :
    handleDataReceived transcriptionHelloPayload (some { identity := "assistant-1" }) =
        DataOutcome.appended (some (Json.str "hello")) "assistant-1" false ∧
    (isUserFor (some { identity := "assistant-1" }) = true ↔
        (some { identity := "assistant-1" } : Option Participant) = none ∨
        ∃ q, (some { identity := "assistant-1" } : Option Participant) = some q ∧
          q.identity = "user") := by
  have h := C5_transcription_append transcriptionHelloPayload
      (some { identity := "assistant-1" }) helloJson rfl rfl
  exact ⟨h.1, h.2.1⟩

/-- C6 counterexample: after connecting and receiving the welcome entry the
transcript holds one entry; the disconnect click unmounts `RoomContent` and
the transcript observable to the presentation layer is empty, not equal to
the pre-disconnect contents. -/
theorem C6_counterexample :
    (transcriptSnapshot connectedAfterWelcome).length = 1 ∧
    transcriptSnapshot (step connectedAfterWelcome Event.disconnectClick) = [] := by
  exact ⟨rfl, rfl⟩

/-- C6 (amended): the disconnect click returns the app to the disconnected
screen and discards the component-scoped transcript together with the rest of
the room state (a later session starts empty); while a session is mounted,
the clear click is what empties the transcript. -/
theorem C6_disconnect_discards (s : AppState) :
    step s Event.disconnectClick = { s with shouldConnect := false, room := none } ∧
    (∀ r, s.room = some r →
        step s Event.clearClick = { s with room := some { r with transcripts := [] } }) := by
  constructor
  · simp [step, renderSync]
  · intro r hr
    simp [step, onRoom, hr, clearTranscripts]

/-- Witness for C6 (amended) on a connected state with one entry. -/
theorem C6_disconnect_discards_witness :
    step connectedWithEntry Event.disconnectClick =
        { connectedWithEntry with shouldConnect := false, room := none } ∧
    step connectedWithEntry Event.clearClick =
        { connectedWithEntry with room := some { transcripts := [], isInitDone := true } } := by
  have h := C6_disconnect_discards connectedWithEntry
  refine ⟨h.1, ?_⟩
  have h2 := h.2
      { transcripts := [mkTranscriptMessage env0 (some (Json.str "hi")) "User" true]
        isInitDone := true } rfl
  exact h2

/-- C7 counterexample: delivering `onSessionFailed("network-lost")` while
Connected leaves the state bit-for-bit unchanged — still Connected with no
error recorded — rather than transitioning to a `Failed("network-lost")`
state. -/
theorem C7_counterexample :
    step connectedQuiet (Event.sessionFailed "network-lost") = connectedQuiet ∧
    connectedQuiet.error = none ∧ connectedQuiet.shouldConnect = true :=
  ⟨rfl, rfl, rfl⟩

/-- C7 (amended): the component registers no handler for session failure, so
a `sessionFailed` notification changes nothing: state, error field and
transcript are all left exactly as they were. -/
theorem C7_session_failure_unobserved (s : AppState) (reason : String) :
    step s (Event.sessionFailed reason) = s := rfl

/-- Folding the per-participant announcements appends them in roster order. -/
theorem rosterFold_eq (l : List (Participant × Env)) (acc : List TranscriptMessage) :
    (l.foldl (fun a pe =>
        addTranscriptMessage pe.2 (some (Json.str (rosterMessageText pe.1))) "System" false a)
      acc)
      = acc ++ l.map (fun pe =>
          mkTranscriptMessage pe.2 (some (Json.str (rosterMessageText pe.1))) "System" false) := by
  induction l generalizing acc with
  | nil => simp
  | cons pe l ih =>
      rw [List.foldl_cons, ih]
      simp [addTranscriptMessage]

/-- C9: while mounted, a roster-change event with a non-empty roster appends
exactly one System entry per participant present after the change, labeled
with that participant's identity, in roster order; firing another change
event for the same roster appends the same number of entries again. -/
theorem C9_roster_announcements (envs : List Env) (roster : List Participant)
    (r : RoomState) (hne : roster ≠ []) (hlen : envs.length = roster.length) :
    (rosterEffect envs roster r).transcripts =
        r.transcripts ++ (roster.zip envs).map
          (fun pe =>
            mkTranscriptMessage pe.2 (some (Json.str (rosterMessageText pe.1))) "System" false) ∧
    ((rosterEffect envs roster r).transcripts).length =
        r.transcripts.length + roster.length ∧
    (∀ envs2, envs2.length = roster.length →
        ((rosterEffect envs2 roster (rosterEffect envs roster r)).transcripts).length =
          r.transcripts.length + roster.length + roster.length) := by
  have hpos : 0 < roster.length := List.length_pos.mpr hne
  have key : ∀ (es : List Env) (r2 : RoomState), es.length = roster.length →
      (rosterEffect es roster r2).transcripts =
        r2.transcripts ++ (roster.zip es).map
          (fun pe =>
            mkTranscriptMessage pe.2 (some (Json.str (rosterMessageText pe.1))) "System" false) := by
    intro es r2 hes
    simp [rosterEffect, hpos, rosterFold_eq]
  have klen : ∀ (es : List Env) (r2 : RoomState), es.length = roster.length →
      (rosterEffect es roster r2).transcripts.length =
        r2.transcripts.length + roster.length := by
    intro es r2 hes
    rw [key es r2 hes]
    simp [List.length_zip, hes]
  refine ⟨key envs r hlen, klen envs r hlen, fun envs2 h2 => ?_⟩
  rw [klen envs2 _ h2, klen envs r hlen]

/-- Witness for C9 on a one-participant roster observed twice. -/
theorem C9_roster_announcements_witness :
    (rosterEffect [env0] agentRoster roomInit).transcripts =
        [mkTranscriptMessage env0
          (some (Json.str (rosterMessageText { identity := "agent" }))) "System" false] ∧
    ((rosterEffect [env0] agentRoster (rosterEffect [env0] agentRoster roomInit)).transcripts).length = 2 := by
  have h := C9_roster_announcements [env0] agentRoster roomInit (by decide) rfl
  exact ⟨by simpa using h.1, by simpa using h.2.2 [env0] rfl⟩

/-- C10: a payload decoding to a `"transcription"` object with no `text`
field is still appended — the absent text is carried through as-is and the
event is never dropped for missing text. -/
theorem C10_missing_text_still_appended (payload : List Nat) (p : Option Participant)
    (j : Json) (hp : jsonParse (utf8DecodeReplace payload) = some j)
    (ht : getField j "type" = some (Json.str "transcription"))
    (hx : getField j "text" = none) :
    handleDataReceived payload p = DataOutcome.appended none (speakerFor p) (isUserFor p) ∧
    (∀ env r, (dataEffect env payload p r).transcripts =
        r.transcripts ++ [mkTranscriptMessage env none (speakerFor p) (isUserFor p)]) := by
  have h1 := handleDataReceived_transcription payload p j hp ht
  rw [hx] at h1
  refine ⟨h1, fun env r => ?_⟩
  simp [dataEffect, h1, addTranscriptMessage]

/-- Witness for C10 on the concrete text-less transcription payload. -/
theorem C10_missing_text_still_appended_witness :
    handleDataReceived transcriptionNoTextPayload none =
        DataOutcome.appended none "User" true ∧
    (dataEffect env0 transcriptionNoTextPayload none roomInit).transcripts =
        [mkTranscriptMessage env0 none "User" true] := by
  have h := C10_missing_text_still_appended transcriptionNoTextPayload none
      (Json.obj [("type", Json.str "transcription")]) rfl rfl rfl
  exact ⟨h.1, by simpa using h.2 env0 roomInit⟩

end FlowShield
